import Mathlib

/-!
Shallow embedding of the rsterm editor core (src/src/editor.rs,
src/src/editor/terminal.rs, src/src/editor/view/buffer.rs, src/src/main.rs).

Rust `usize` values are modelled as `Nat`; `saturating_sub` is Lean's
truncated `Nat` subtraction and `saturating_add` caps at `usizeMax = 2^64 - 1`.
Fallible terminal queries are passed in as `Option` arguments; queued terminal
instructions are recorded as explicit traces (`List Instr`).
-/

namespace Rsterm

/-- Rust `usize::MAX` on a 64-bit target. -/
def usizeMax : Nat := 2 ^ 64 - 1

/-- Rust `usize::saturating_add`. -/
def satAdd (a b : Nat) : Nat := min (a + b) usizeMax

/-- `Size` from src/src/editor/terminal.rs (fields in source order). -/
structure Size where
  height : Nat
  width : Nat
deriving DecidableEq

/-- `Position` from src/src/editor/terminal.rs. -/
structure Position where
  col : Nat
  row : Nat
deriving DecidableEq

/-- `Location` from src/src/editor.rs. -/
structure Location where
  x : Nat
  y : Nat
deriving DecidableEq

/-- The crossterm `KeyCode` variants the editor distinguishes: the eight
movement keys, character keys, and a catch-all for every other variant
(the Rust code matches all of those with `_`). -/
inductive KeyCode where
  | Up
  | Down
  | Left
  | Right
  | PageUp
  | PageDown
  | Home
  | End
  | Char (c : Char)
  | OtherKey
deriving DecidableEq

/-- crossterm `KeyModifiers` as a set of flag bits. -/
structure KeyModifiers where
  shift : Bool
  control : Bool
  alt : Bool
deriving DecidableEq

/-- The `KeyModifiers::CONTROL` constant: exactly the control bit set. -/
def KeyModifiers.CONTROL : KeyModifiers := ⟨false, true, false⟩

/-- The empty modifier set (`KeyModifiers::NONE`). -/
def KeyModifiers.NONE : KeyModifiers := ⟨false, false, false⟩

/-- crossterm `KeyEventKind`. -/
inductive KeyEventKind where
  | Press
  | Release
  | Repeat
deriving DecidableEq

/-- crossterm `KeyEvent` (the fields the editor reads). -/
structure KeyEvent where
  code : KeyCode
  kind : KeyEventKind
  modifiers : KeyModifiers
deriving DecidableEq

/-- crossterm `Event`: key events, resize events (width then height, as in
`Event::Resize(width_u16, height_u16)`), and a catch-all for other events. -/
inductive Event where
  | Key (k : KeyEvent)
  | Resize (width height : Nat)
  | OtherEvent
deriving DecidableEq

/-- `Editor::calculate_movement` from src/src/editor.rs lines 69-100,
translated clause by clause: `saturating_sub 1` is `· - 1` on `Nat`,
`saturating_add 1` is `satAdd · 1`. -/
def calculate_movement (location : Location) (key_code : KeyCode) (size : Size) :
    Location :=
  let x := location.x
  let y := location.y
  let height := size.height
  let width := size.width
  match key_code with
  | KeyCode.Up => { x := x, y := y - 1 }
  | KeyCode.Down => { x := x, y := min (height - 1) (satAdd y 1) }
  | KeyCode.Left => { x := x - 1, y := y }
  | KeyCode.Right => { x := min (width - 1) (satAdd x 1), y := y }
  | KeyCode.PageUp => { x := x, y := 0 }
  | KeyCode.PageDown => { x := x, y := height - 1 }
  | KeyCode.Home => { x := 0, y := y }
  | KeyCode.End => { x := width - 1, y := y }
  | _ => { x := x, y := y }

/-- Whether a key code is one of the eight movement keys, i.e. matched by the
second arm of the `match (code, modifiers)` in `Editor::evaluate_event`
(src/src/editor.rs lines 114-126). -/
def KeyCode.isMovement : KeyCode → Bool
  | KeyCode.Up | KeyCode.Down | KeyCode.Left | KeyCode.Right
  | KeyCode.PageUp | KeyCode.PageDown | KeyCode.Home | KeyCode.End => true
  | _ => false

/-- `Buffer` from src/src/editor/view/buffer.rs. -/
structure Buffer where
  lines : List String
deriving DecidableEq

/-- `Buffer::default` from src/src/editor/view/buffer.rs. -/
def Buffer.defaultBuffer : Buffer := ⟨["Hello, World!"]⟩

/-- A queued terminal instruction, one constructor per `Terminal` operation in
src/src/editor/terminal.rs (each queues one crossterm command; `Flush` is
`Terminal::execute`, i.e. `stdout().flush()`), plus the raw-mode toggles. -/
inductive Instr where
  | HideCaret
  | ShowCaret
  | MoveCaretTo (p : Position)
  | ClearScreen
  | ClearLine
  | Print (s : String)
  | Flush
  | EnterAltScreen
  | LeaveAltScreen
  | EnableRawMode
  | DisableRawMode
deriving DecidableEq

/-- Modelled from the spec: `View` (src/src/editor/view.rs is not under src/;
only its submodule buffer.rs is). Per spec section 4.3 the Viewport holds the
current ScreenSize, updated on resize notifications, and a read-only
TextBuffer. -/
structure View where
  buffer : Buffer
  size : Size
deriving DecidableEq

/-- Modelled from the spec: `View::resize(new_size)` "replaces stored size;
does not itself trigger a redraw" (spec section 4.3). -/
def View.resize (v : View) (new_size : Size) : View := { v with size := new_size }

/-- Modelled from the spec: the instruction trace of `View::render()` — "for
each visible row, writes the corresponding buffer line if one exists at that
index, otherwise writes a blank line; must clear each line before writing"
(spec section 4.3). -/
def View.renderTrace (v : View) : List Instr :=
  (List.range v.size.height).flatMap fun row =>
    [Instr.ClearLine, Instr.Print (v.buffer.lines.getD row "")]

/-- The `Editor` state from src/src/editor.rs (the `_terminal` handle carries
no data and is modelled by the session-lifecycle definitions below). -/
structure Editor where
  should_quit : Bool
  location : Location
  view : View
deriving DecidableEq

/-- `Editor::move_point` from src/src/editor.rs lines 60-67. The fallible
`Terminal::size()` query is passed in as `size_result`; on failure (`none`)
the movement is skipped and the editor is returned unchanged. -/
def move_point (size_result : Option Size) (key_code : KeyCode) (e : Editor) :
    Editor :=
  match size_result with
  | none => e
  | some size => { e with location := calculate_movement e.location key_code size }

/-- `Editor::evaluate_event` from src/src/editor.rs lines 103-139. Only key
events of kind `Press` are examined; `(Char 'q', CONTROL)` sets the quit flag,
the eight movement keys (with any modifiers) run `move_point`, a resize event
replaces the view size with `Size { height, width }` built from the event's
width and height, and everything else is ignored. -/
def evaluate_event (size_result : Option Size) (event : Event) (e : Editor) :
    Editor :=
  match event with
  | Event.Key k =>
    match k.kind with
    | KeyEventKind.Press =>
      if k.code = KeyCode.Char 'q' ∧ k.modifiers = KeyModifiers.CONTROL then
        { e with should_quit := true }
      else if k.code.isMovement then
        move_point size_result k.code e
      else
        e
    | _ => e
  | Event.Resize w h => { e with view := e.view.resize { height := h, width := w } }
  | Event.OtherEvent => e

/-- The instruction trace of `Editor::refresh_screen` from src/src/editor.rs
lines 141-158 on its success path: hide caret, move to the default position
(0,0), then either clear and print the farewell (quitting) or render the view
and move the caret to the current location, then show caret and flush. -/
def refresh_screen_trace (e : Editor) : List Instr :=
  [Instr.HideCaret, Instr.MoveCaretTo ⟨0, 0⟩] ++
    (if e.should_quit then
      [Instr.ClearScreen, Instr.Print "Goodbye.\r\n"]
    else
      e.view.renderTrace ++ [Instr.MoveCaretTo ⟨e.location.x, e.location.y⟩]) ++
    [Instr.ShowCaret, Instr.Flush]

/-- The refresh sequence as the spec's arrow chain states it (spec section
4.4): "hide cursor → move cursor to origin → (clear screen and print farewell
if Quitting, else render viewport) → move cursor to the model's current
coordinate → show cursor → flush" — with the move to the current coordinate
outside the conditional, hence performed on the quitting path too. Declared
for comparison with `refresh_screen_trace`, which embeds the source. -/
def claimed_refresh_trace (e : Editor) : List Instr :=
  [Instr.HideCaret, Instr.MoveCaretTo ⟨0, 0⟩] ++
    (if e.should_quit then
      [Instr.ClearScreen, Instr.Print "Goodbye.\r\n"]
    else
      e.view.renderTrace) ++
    [Instr.MoveCaretTo ⟨e.location.x, e.location.y⟩, Instr.ShowCaret, Instr.Flush]

/-- One iteration of `Editor::repl` (src/src/editor.rs lines 48-58): refresh
first (emitting `refresh_screen_trace` computed from the pre-dispatch state);
if the quit flag is set the loop stops (`none`) without reading an event,
otherwise the next event is read and dispatched through `evaluate_event`,
which queues no terminal instructions of its own. -/
def repl_iteration (size_result : Option Size) (event : Event) (e : Editor) :
    Option Editor × List Instr :=
  if e.should_quit then
    (none, refresh_screen_trace e)
  else
    (some (evaluate_event size_result event e), refresh_screen_trace e)

/-- Whether an event is a key press of `Char 'q'` with exactly the control
modifier — the one event that sets the quit flag. -/
def is_ctrl_q_press (ev : Event) : Bool :=
  match ev with
  | Event.Key k =>
    decide (k.kind = KeyEventKind.Press) && decide (k.code = KeyCode.Char 'q') &&
      decide (k.modifiers = KeyModifiers.CONTROL)
  | _ => false

/-- The Cursor Model reference table as the spec states it (spec section 4.2):
Up: y = max(y−1, 0); Down: y = min(y+1, height−1), 0 if height = 0; Left:
x = max(x−1, 0); Right: x = min(x+1, width−1), 0 if width = 0; PageUp: y = 0;
PageDown: y = height−1, 0 if height = 0; Home: x = 0; End: x = width−1, 0 if
width = 0; no-op: unchanged. Declared for comparison with
`calculate_movement`, which embeds the source. -/
def advance_spec (current : Location) (command : KeyCode) (bounds : Size) :
    Location :=
  let x := current.x
  let y := current.y
  let height := bounds.height
  let width := bounds.width
  match command with
  | KeyCode.Up => { x := x, y := y - 1 }
  | KeyCode.Down =>
    { x := x, y := if height = 0 then 0 else min (y + 1) (height - 1) }
  | KeyCode.Left => { x := x - 1, y := y }
  | KeyCode.Right =>
    { x := if width = 0 then 0 else min (x + 1) (width - 1), y := y }
  | KeyCode.PageUp => { x := x, y := 0 }
  | KeyCode.PageDown => { x := x, y := if height = 0 then 0 else height - 1 }
  | KeyCode.Home => { x := 0, y := y }
  | KeyCode.End => { x := if width = 0 then 0 else width - 1, y := y }
  | _ => { x := x, y := y }

/-- The observable terminal device state: raw mode, alternate screen, caret
visibility. -/
structure TermState where
  rawMode : Bool
  altScreen : Bool
  caretVisible : Bool
deriving DecidableEq

/-- The effect of one instruction on the device state (write-only
instructions leave it unchanged). -/
def applyInstr (st : TermState) : Instr → TermState
  | Instr.EnableRawMode => { st with rawMode := true }
  | Instr.DisableRawMode => { st with rawMode := false }
  | Instr.EnterAltScreen => { st with altScreen := true }
  | Instr.LeaveAltScreen => { st with altScreen := false }
  | Instr.HideCaret => { st with caretVisible := false }
  | Instr.ShowCaret => { st with caretVisible := true }
  | _ => st

/-- The device state after a successful `Terminal::new()`
(src/src/editor/terminal.rs lines 29-35): raw mode enabled, alternate screen
entered, caret still visible. -/
def openedTermState : TermState := ⟨true, true, true⟩

/-- The four restoration steps of `impl Drop for Terminal`
(src/src/editor/terminal.rs lines 163-172), in source order. -/
def terminal_drop_steps : List Instr :=
  [Instr.LeaveAltScreen, Instr.ShowCaret, Instr.Flush, Instr.DisableRawMode]

/-- `impl Drop for Terminal`, with per-step failure injected by `fail`: each
`let _ = ...` attempts its step and discards the result, so a failing step
(which leaves the device state unchanged) never prevents the later steps from
being attempted, and the function is total — it returns the final state and
the list of attempted steps instead of raising. -/
def terminal_drop (fail : Instr → Bool) (st : TermState) :
    TermState × List Instr :=
  terminal_drop_steps.foldl
    (fun acc i => (if fail i then acc.1 else applyInstr acc.1 i, acc.2 ++ [i]))
    (st, [])

/-- The restoration steps of the panic hook installed in src/src/main.rs lines
9-18: `execute!(stdout(), LeaveAlternateScreen, Show)` (queue both, then
flush) followed by `disable_raw_mode()`. -/
def panic_hook_steps : List Instr :=
  [Instr.LeaveAltScreen, Instr.ShowCaret, Instr.Flush, Instr.DisableRawMode]

/-- The restoration instructions issued after a panic that follows a
successful session open: the panic hook runs at the panic site, then stack
unwinding drops the `Editor` (and with it the `Terminal`), running
`impl Drop for Terminal`. -/
def abrupt_failure_steps : List Instr := panic_hook_steps ++ terminal_drop_steps

/-- C1: for every screen size with positive width and height, every coordinate
inside `[0, width) × [0, height)`, and every key code (in particular each of
the eight movement commands), `calculate_movement` returns a coordinate still
inside `[0, width) × [0, height)`. -/
theorem calculate_movement_in_bounds (size : Size) (loc : Location) (k : KeyCode)
    (hw : 0 < size.width) (hh : 0 < size.height)
    (hx : loc.x < size.width) (hy : loc.y < size.height) :
    (calculate_movement loc k size).x < size.width ∧
      (calculate_movement loc k size).y < size.height := by
  cases k <;> simp only [calculate_movement, satAdd, usizeMax] <;>
    constructor <;> omega

/-- C1 witness: the bounds invariant at size 24×80, location (10, 5), Down. -/
theorem calculate_movement_in_bounds_witness :
    (0 : Nat) < 80 ∧ (0 : Nat) < 24 ∧ (10 : Nat) < 80 ∧ (5 : Nat) < 24 ∧
      ((calculate_movement ⟨10, 5⟩ KeyCode.Down ⟨24, 80⟩).x < 80 ∧
        (calculate_movement ⟨10, 5⟩ KeyCode.Down ⟨24, 80⟩).y < 24) :=
  ⟨by decide, by decide, by decide, by decide,
    calculate_movement_in_bounds ⟨24, 80⟩ ⟨10, 5⟩ KeyCode.Down
      (by decide) (by decide) (by decide) (by decide)⟩

/-- Key arithmetic fact: clamping a saturating increment against a `usize`
bound agrees with the unsaturated `min` formula of the spec table. -/
theorem min_sub_one_satAdd (b y : Nat) (hb : b ≤ usizeMax) :
    min (b - 1) (satAdd y 1) = if b = 0 then 0 else min (y + 1) (b - 1) := by
  simp only [satAdd, usizeMax] at *
  split <;> omega

/-- C2: `calculate_movement` coincides with the spec's reference table
`advance_spec` on every input whose bounds are representable `usize` values,
and in particular reproduces the spec's 24×80 scenario values exactly
(coordinates written as (x, y)). -/
theorem calculate_movement_eq_advance_spec :
    (∀ (loc : Location) (k : KeyCode) (bounds : Size),
      bounds.height ≤ usizeMax → bounds.width ≤ usizeMax →
        calculate_movement loc k bounds = advance_spec loc k bounds) ∧
      calculate_movement ⟨5, 10⟩ KeyCode.Up ⟨24, 80⟩ = ⟨5, 9⟩ ∧
      calculate_movement ⟨5, 10⟩ KeyCode.Down ⟨24, 80⟩ = ⟨5, 11⟩ ∧
      calculate_movement ⟨0, 23⟩ KeyCode.Down ⟨24, 80⟩ = ⟨0, 23⟩ ∧
      calculate_movement ⟨5, 15⟩ KeyCode.PageUp ⟨24, 80⟩ = ⟨5, 0⟩ ∧
      calculate_movement ⟨5, 0⟩ KeyCode.PageDown ⟨24, 80⟩ = ⟨5, 23⟩ ∧
      calculate_movement ⟨40, 10⟩ KeyCode.Home ⟨24, 80⟩ = ⟨0, 10⟩ ∧
      calculate_movement ⟨0, 10⟩ KeyCode.End ⟨24, 80⟩ = ⟨79, 10⟩ ∧
      ∀ (loc : Location) (bounds : Size) (c : Char),
        calculate_movement loc (KeyCode.Char c) bounds = loc ∧
          calculate_movement loc KeyCode.OtherKey bounds = loc := by
  refine ⟨fun loc k bounds hh hw => ?_, by decide, by decide, by decide,
    by decide, by decide, by decide, by decide, fun loc bounds c => ⟨rfl, rfl⟩⟩
  cases k
  case Down =>
    exact congrArg (Location.mk loc.x) (min_sub_one_satAdd bounds.height loc.y hh)
  case Right =>
    exact congrArg (fun a => Location.mk a loc.y)
      (min_sub_one_satAdd bounds.width loc.x hw)
  case PageDown =>
    have h : bounds.height - 1 = if bounds.height = 0 then 0 else bounds.height - 1 := by
      split <;> omega
    exact congrArg (Location.mk loc.x) h
  case End =>
    have h : bounds.width - 1 = if bounds.width = 0 then 0 else bounds.width - 1 := by
      split <;> omega
    exact congrArg (fun a => Location.mk a loc.y) h
  all_goals rfl

/-- C2 witness: the table equality at size 24×80, location (5, 10), Down. -/
theorem calculate_movement_eq_advance_spec_witness :
    calculate_movement ⟨5, 10⟩ KeyCode.Down ⟨24, 80⟩ =
      advance_spec ⟨5, 10⟩ KeyCode.Down ⟨24, 80⟩ :=
  calculate_movement_eq_advance_spec.1 ⟨5, 10⟩ KeyCode.Down ⟨24, 80⟩
    (by decide) (by decide)

/-- C6: with width = 0 and height = 0, every key code (in particular each of
the eight movement commands) maps the coordinate (0, 0) to (0, 0); the
embedding computes this with total saturating `Nat` arithmetic, so there is no
underflow, overflow, or panic. -/
theorem calculate_movement_zero_size (k : KeyCode) :
    calculate_movement ⟨0, 0⟩ k ⟨0, 0⟩ = ⟨0, 0⟩ := by
  cases k <;> rfl

/-- C7 counterexample: at size 1×1 (both dimensions positive), from the stale
out-of-bounds coordinate (0, 5), the Up command yields (0, 4), whose y is
still outside `[0, 1)` — the next movement does not generally re-clamp. -/
theorem stale_coordinate_not_reclamped :
    (0 : Nat) < 1 ∧ (0 : Nat) < 1 ∧
      ¬((calculate_movement ⟨0, 5⟩ KeyCode.Up ⟨1, 1⟩).x < 1 ∧
        (calculate_movement ⟨0, 5⟩ KeyCode.Up ⟨1, 1⟩).y < 1) := by
  decide

/-- C7 amended: for positive bounds and an arbitrary (possibly stale,
out-of-bounds) starting coordinate, each movement command re-clamps only the
axis it moves, and only for the clamping commands: Down, PageUp and PageDown
leave y inside `[0, height)` and Right, Home and End leave x inside
`[0, width)`, while Up and Left merely decrement their axis by one (saturating
at 0) and no command changes the other axis. -/
theorem calculate_movement_stale_reclamp (size : Size) (loc : Location)
    (hw : 0 < size.width) (hh : 0 < size.height) :
    (calculate_movement loc KeyCode.Down size).y < size.height ∧
      (calculate_movement loc KeyCode.PageUp size).y < size.height ∧
      (calculate_movement loc KeyCode.PageDown size).y < size.height ∧
      (calculate_movement loc KeyCode.Right size).x < size.width ∧
      (calculate_movement loc KeyCode.Home size).x < size.width ∧
      (calculate_movement loc KeyCode.End size).x < size.width ∧
      (calculate_movement loc KeyCode.Up size).y = loc.y - 1 ∧
      (calculate_movement loc KeyCode.Left size).x = loc.x - 1 ∧
      (calculate_movement loc KeyCode.Up size).x = loc.x ∧
      (calculate_movement loc KeyCode.Down size).x = loc.x ∧
      (calculate_movement loc KeyCode.PageUp size).x = loc.x ∧
      (calculate_movement loc KeyCode.PageDown size).x = loc.x ∧
      (calculate_movement loc KeyCode.Left size).y = loc.y ∧
      (calculate_movement loc KeyCode.Right size).y = loc.y ∧
      (calculate_movement loc KeyCode.Home size).y = loc.y ∧
      (calculate_movement loc KeyCode.End size).y = loc.y := by
  refine ⟨?_, ?_, ?_, ?_, ?_, ?_, rfl, rfl, rfl, rfl, rfl, rfl, rfl, rfl, rfl, rfl⟩
  · show min (size.height - 1) (satAdd loc.y 1) < size.height
    simp only [satAdd, usizeMax]
    omega
  · exact hh
  · show size.height - 1 < size.height
    omega
  · show min (size.width - 1) (satAdd loc.x 1) < size.width
    simp only [satAdd, usizeMax]
    omega
  · exact hw
  · show size.width - 1 < size.width
    omega

/-- C7 amended witness: the per-axis re-clamping facts at size 1×1 from the
stale coordinate (0, 5). -/
theorem calculate_movement_stale_reclamp_witness :
    (0 : Nat) < 1 ∧ (0 : Nat) < 1 ∧
      (calculate_movement ⟨0, 5⟩ KeyCode.Down ⟨1, 1⟩).y < 1 ∧
      (calculate_movement ⟨0, 5⟩ KeyCode.Up ⟨1, 1⟩).y = 5 - 1 :=
  ⟨by decide, by decide,
    (calculate_movement_stale_reclamp ⟨1, 1⟩ ⟨0, 5⟩ (by decide) (by decide)).1,
    (calculate_movement_stale_reclamp ⟨1, 1⟩ ⟨0, 5⟩ (by decide)
      (by decide)).2.2.2.2.2.2.1⟩

/-- C4: the quit flag after `evaluate_event` is true exactly when it was
already true or the event is a key press of `Char 'q'` with the control
modifier; in particular release and repeat events of otherwise-handled keys,
and every other event, leave the flag unchanged. -/
theorem evaluate_event_quit_flag (size_result : Option Size) (ev : Event)
    (e : Editor) :
    (evaluate_event size_result ev e).should_quit =
      (e.should_quit || is_ctrl_q_press ev) := by
  cases ev with
  | Key k =>
    obtain ⟨code, kind, modifiers⟩ := k
    by_cases hA : code = KeyCode.Char 'q' <;>
      by_cases hB : modifiers = KeyModifiers.CONTROL <;>
        cases kind <;> cases size_result <;>
          simp_all [evaluate_event, is_ctrl_q_press, move_point, apply_ite]
  | Resize w h => simp [evaluate_event, is_ctrl_q_press]
  | OtherEvent => simp [evaluate_event, is_ctrl_q_press]

/-- C5 counterexample: on a quitting state, the source's refresh sequence
differs from the spec's arrow chain (which moves the caret to the current
coordinate unconditionally): the source does not emit that move on the
quitting path. -/
theorem refresh_trace_ne_claimed :
    refresh_screen_trace ⟨true, ⟨3, 5⟩, ⟨Buffer.defaultBuffer, ⟨24, 80⟩⟩⟩ ≠
      claimed_refresh_trace ⟨true, ⟨3, 5⟩, ⟨Buffer.defaultBuffer, ⟨24, 80⟩⟩⟩ := by
  decide

/-- C5 amended: every refresh pass issues hide caret, move caret to origin,
then — if the quit flag is set — clear screen and print exactly
"Goodbye.\r\n", otherwise render the viewport followed by a move of the caret
to the cursor model's current coordinate (the caret move happens only on the
non-quitting path), then show caret, then flush. -/
theorem refresh_screen_trace_order (e : Editor) :
    refresh_screen_trace e =
      if e.should_quit then
        [Instr.HideCaret, Instr.MoveCaretTo ⟨0, 0⟩, Instr.ClearScreen,
          Instr.Print "Goodbye.\r\n", Instr.ShowCaret, Instr.Flush]
      else
        [Instr.HideCaret, Instr.MoveCaretTo ⟨0, 0⟩] ++ e.view.renderTrace ++
          [Instr.MoveCaretTo ⟨e.location.x, e.location.y⟩, Instr.ShowCaret,
            Instr.Flush] := by
  cases h : e.should_quit <;> simp [refresh_screen_trace, h]

/-- C8: dispatching a resize event within a loop iteration replaces only the
view's stored size (built as `Size { height, width }` from the event's width
and height); the location, quit flag and buffer are unchanged, and the
iteration's terminal instructions are exactly the refresh emitted before the
dispatch — the resize itself triggers no redraw, the next cycle's refresh
(computed from the updated state) is responsible for it. -/
theorem resize_updates_only_view_size (size_result : Option Size)
    (w h : Nat) (e : Editor) (hq : e.should_quit = false) :
    repl_iteration size_result (Event.Resize w h) e =
      (some { e with view := { e.view with size := { height := h, width := w } } },
        refresh_screen_trace e) := by
  simp [repl_iteration, hq, evaluate_event, View.resize]

/-- C8 witness: a resize to width 100, height 30 from a concrete running
state. -/
theorem resize_updates_only_view_size_witness :
    repl_iteration none (Event.Resize 100 30)
        ⟨false, ⟨2, 3⟩, ⟨Buffer.defaultBuffer, ⟨24, 80⟩⟩⟩ =
      (some ⟨false, ⟨2, 3⟩, ⟨Buffer.defaultBuffer, ⟨30, 100⟩⟩⟩,
        refresh_screen_trace ⟨false, ⟨2, 3⟩, ⟨Buffer.defaultBuffer, ⟨24, 80⟩⟩⟩) :=
  resize_updates_only_view_size none 100 30
    ⟨false, ⟨2, 3⟩, ⟨Buffer.defaultBuffer, ⟨24, 80⟩⟩⟩ rfl

/-- C9: when a movement key press is dispatched and the terminal size query
fails (`none`), the movement is skipped for that event only: `move_point`
returns the editor unchanged and `evaluate_event` is the identity, raising no
error (both are total functions into `Editor`). -/
theorem movement_skipped_on_size_failure (k : KeyCode) (m : KeyModifiers)
    (e : Editor) (hk : k.isMovement = true) :
    move_point none k e = e ∧
      evaluate_event none (Event.Key ⟨k, KeyEventKind.Press, m⟩) e = e := by
  refine ⟨rfl, ?_⟩
  cases k <;> simp_all [evaluate_event, KeyCode.isMovement, move_point]

/-- C9 witness: a Right key press with no modifiers and a failed size query
leaves a concrete editor unchanged. -/
theorem movement_skipped_on_size_failure_witness :
    (KeyCode.Right).isMovement = true ∧
      (move_point none KeyCode.Right
          ⟨false, ⟨2, 3⟩, ⟨Buffer.defaultBuffer, ⟨24, 80⟩⟩⟩ =
          ⟨false, ⟨2, 3⟩, ⟨Buffer.defaultBuffer, ⟨24, 80⟩⟩⟩ ∧
        evaluate_event none
            (Event.Key ⟨KeyCode.Right, KeyEventKind.Press, KeyModifiers.NONE⟩)
            ⟨false, ⟨2, 3⟩, ⟨Buffer.defaultBuffer, ⟨24, 80⟩⟩⟩ =
          ⟨false, ⟨2, 3⟩, ⟨Buffer.defaultBuffer, ⟨24, 80⟩⟩⟩) :=
  ⟨by decide,
    movement_skipped_on_size_failure KeyCode.Right KeyModifiers.NONE
      ⟨false, ⟨2, 3⟩, ⟨Buffer.defaultBuffer, ⟨24, 80⟩⟩⟩ (by decide)⟩

/-- C10: a key press of any of the eight movement keys is dispatched to the
cursor model regardless of the modifiers held — the modifier position of the
match arm is a wildcard — so with a successful size query the location becomes
`calculate_movement` of the old location. -/
theorem movement_ignores_modifiers (k : KeyCode) (m : KeyModifiers)
    (sz : Size) (e : Editor) (hk : k.isMovement = true) :
    evaluate_event (some sz) (Event.Key ⟨k, KeyEventKind.Press, m⟩) e =
      { e with location := calculate_movement e.location k sz } := by
  cases k <;> simp_all [evaluate_event, KeyCode.isMovement, move_point]

/-- C10 witness: a press of Right with the control modifier held still moves
the cursor right by one at size 24×80. -/
theorem movement_ignores_modifiers_witness :
    (KeyCode.Right).isMovement = true ∧
      evaluate_event (some ⟨24, 80⟩)
          (Event.Key ⟨KeyCode.Right, KeyEventKind.Press, KeyModifiers.CONTROL⟩)
          ⟨false, ⟨2, 3⟩, ⟨Buffer.defaultBuffer, ⟨24, 80⟩⟩⟩ =
        ⟨false, ⟨3, 3⟩, ⟨Buffer.defaultBuffer, ⟨24, 80⟩⟩⟩ :=
  ⟨by decide,
    Eq.trans
      (movement_ignores_modifiers KeyCode.Right KeyModifiers.CONTROL ⟨24, 80⟩
        ⟨false, ⟨2, 3⟩, ⟨Buffer.defaultBuffer, ⟨24, 80⟩⟩⟩ (by decide))
      (by decide)⟩

/-- C3 counterexample: after a panic following a successful session open, the
restoration calls are not invoked exactly once each — the panic hook and the
`Drop` impl both run, so disabling raw mode is invoked twice. -/
theorem teardown_calls_not_exactly_once :
    ¬ abrupt_failure_steps.count Instr.DisableRawMode = 1 := by
  decide

/-- C3 amended: the teardown is total (never raises) and attempts all four
restoration steps in order no matter which steps fail; and after a panic
following a successful session open, raw mode is disabled and the alternate
screen exited, the restoration calls having been invoked at least once — in
fact exactly twice — each (once by the panic hook, once by the `Drop` impl).
-/
theorem teardown_restores_terminal :
    (∀ (fail : Instr → Bool) (st : TermState),
      (terminal_drop fail st).2 = terminal_drop_steps) ∧
      (abrupt_failure_steps.foldl applyInstr openedTermState).rawMode = false ∧
      (abrupt_failure_steps.foldl applyInstr openedTermState).altScreen = false ∧
      abrupt_failure_steps.count Instr.LeaveAltScreen = 2 ∧
      abrupt_failure_steps.count Instr.ShowCaret = 2 ∧
      abrupt_failure_steps.count Instr.Flush = 2 ∧
      abrupt_failure_steps.count Instr.DisableRawMode = 2 := by
  refine ⟨fun fail st => ?_, by decide, by decide, by decide, by decide,
    by decide, by decide⟩
  simp [terminal_drop, terminal_drop_steps]

end Rsterm
